import Mathlib

/-!
Verification of the `js_option` crate: a tri-state optional type `JsOption`
with variants `Some`, `Null` (explicitly absent) and `Undefined` (implicitly
absent), its conversions to and from the two-state `Option`, its predicates,
unwrapping operations, `map`, the derived total order, and the serde bridge
(`Serialize` / `Deserialize` implementations).

Every definition below is a direct shallow embedding of the corresponding
item in `src/lib.rs` or `src/serde.rs`, except where the doc comment says it
is modelled from the spec (the inverse of `into_nested_option`, which the
crate does not define as a function).
-/

/-- The tri-state optional type, embedding the Rust enum `JsOption<T>` from
`src/lib.rs`. Variant declaration order matters for the derived ordering:
`Some`, then `Null`, then `Undefined`. -/
inductive JsOption (T : Type u) where
  | some (val : T)
  | null
  | undefined
  deriving DecidableEq, Repr

/-- `JsOption::from_option`: `Some(val)` maps to `Some(val)`, `None` to `Null`. -/
def JsOption.from_option : Option T → JsOption T
  | Option.some val => JsOption.some val
  | Option.none => JsOption.null

/-- `JsOption::from_implicit_option`: `Some(val)` maps to `Some(val)`,
`None` to `Undefined`. -/
def JsOption.from_implicit_option : Option T → JsOption T
  | Option.some val => JsOption.some val
  | Option.none => JsOption.undefined

/-- `JsOption::into_option`: `Some(val)` maps to `Some(val)`, both other
variants map to `None`. -/
def JsOption.into_option : JsOption T → Option T
  | JsOption.some val => Option.some val
  | _ => Option.none

/-- `JsOption::into_nested_option`: `Some(val)` maps to `Some(Some(val))`,
`Null` to `Some(None)`, `Undefined` to `None`. -/
def JsOption.into_nested_option : JsOption T → Option (Option T)
  | JsOption.some val => Option.some (Option.some val)
  | JsOption.null => Option.some Option.none
  | JsOption.undefined => Option.none

/-- `JsOption::is_some`: true exactly on the `Some` variant. -/
def JsOption.is_some : JsOption T → Bool
  | JsOption.some _ => true
  | _ => false

/-- `JsOption::is_null`: true exactly on the `Null` variant. -/
def JsOption.is_null : JsOption T → Bool
  | JsOption.null => true
  | _ => false

/-- `JsOption::is_undefined`: true exactly on the `Undefined` variant. -/
def JsOption.is_undefined : JsOption T → Bool
  | JsOption.undefined => true
  | _ => false

/-- `JsOption::unwrap`. The Rust function returns the payload on `Some` and
panics on the other variants; the panic is embedded as the error case of
`Except`, carrying the panic message. -/
def JsOption.unwrap : JsOption T → Except String T
  | JsOption.some val => Except.ok val
  | JsOption.null => Except.error ("called `JsOption::unwrap()` on `Null`")
  | JsOption.undefined => Except.error ("called `JsOption::unwrap()` on `Undefined`")

/-- `JsOption::unwrap_or`: payload on `Some`, the supplied default otherwise. -/
def JsOption.unwrap_or (o : JsOption T) (default : T) : T :=
  match o with
  | JsOption.some val => val
  | _ => default

/-- `JsOption::unwrap_or_else`: payload on `Some`, otherwise the result of
calling the closure `f`. -/
def JsOption.unwrap_or_else (o : JsOption T) (f : Unit → T) : T :=
  match o with
  | JsOption.some val => val
  | _ => f ()

/-- `JsOption::map`: applies `f` to the payload on `Some`; `Null` and
`Undefined` pass through unchanged. -/
def JsOption.map (o : JsOption T) (f : T → U) : JsOption U :=
  match o with
  | JsOption.some val => JsOption.some (f val)
  | JsOption.null => JsOption.null
  | JsOption.undefined => JsOption.undefined

/-- `JsOption::unwrap_or_default` (on `T: Default`): defined in the source as
`self.unwrap_or_else(Default::default)`. -/
def JsOption.unwrap_or_default [Inhabited T] (o : JsOption T) : T :=
  o.unwrap_or_else (fun _ => default)

/-- The `Default` impl for `JsOption<T>`: returns `Undefined`. -/
def JsOption.default_value : JsOption T :=
  JsOption.undefined

/-- The derived `Ord` on `JsOption<T>` (from `#[derive(PartialOrd, Ord)]`):
variants compare by declaration order (`Some` before `Null` before
`Undefined`), and two `Some` values compare by `T`'s own comparison. -/
def JsOption.cmp [Ord T] : JsOption T → JsOption T → Ordering
  | JsOption.some a, JsOption.some b => compare a b
  | JsOption.some _, JsOption.null => Ordering.lt
  | JsOption.some _, JsOption.undefined => Ordering.lt
  | JsOption.null, JsOption.some _ => Ordering.gt
  | JsOption.null, JsOption.null => Ordering.eq
  | JsOption.null, JsOption.undefined => Ordering.lt
  | JsOption.undefined, JsOption.some _ => Ordering.gt
  | JsOption.undefined, JsOption.null => Ordering.gt
  | JsOption.undefined, JsOption.undefined => Ordering.eq

/-- The strict order induced by the derived `Ord`, as in Rust's `lt`:
`a < b` iff `a.cmp(&b) == Less`. -/
def JsOption.lt [Ord T] (a b : JsOption T) : Prop :=
  a.cmp b = Ordering.lt

/-- The non-strict order induced by the derived `Ord`, as in Rust's `le`:
`a <= b` iff `a.cmp(&b) != Greater`. -/
def JsOption.le [Ord T] (a b : JsOption T) : Prop :=
  a.cmp b ≠ Ordering.gt

instance [Ord T] [DecidableEq T] : DecidableRel (JsOption.lt (T := T)) :=
  fun a b => inferInstanceAs (Decidable (a.cmp b = Ordering.lt))

instance [Ord T] [DecidableEq T] : DecidableRel (JsOption.le (T := T)) :=
  fun a b => inferInstanceAs (Decidable (a.cmp b ≠ Ordering.gt))

/-- The serializer output at the single-value level, abstracting serde's
`Serializer`: `serialize_some(v)` produces a value wrapped as present,
`serialize_none()` produces an explicit null marker. -/
inductive SerdeOut (T : Type u) where
  | someVal (val : T)
  | noneVal
  deriving DecidableEq, Repr

/-- The `Serialize` impl for `JsOption<T>` from `src/serde.rs`: `Some(val)`
calls `serializer.serialize_some(val)`, `Null` calls
`serializer.serialize_none()`, and `Undefined` returns
`Err(S::Error::custom("attempted to serialize undefined"))` (the message
quotes the word undefined in backticks). -/
def JsOption.serialize : JsOption T → Except String (SerdeOut T)
  | JsOption.some val => Except.ok (SerdeOut.someVal val)
  | JsOption.null => Except.ok SerdeOut.noneVal
  | JsOption.undefined => Except.error ("attempted to serialize `undefined`")

/-- The `Deserialize` impl for `JsOption<T>` from `src/serde.rs`:
`Option::<T>::deserialize(deserializer).map(Self::from_option)`. The host
framework's decode of `Option<T>` either fails or yields an `Option T`; the
bridge maps `from_option` over the success case. -/
def JsOption.deserialize (res : Except String (Option T)) : Except String (JsOption T) :=
  res.map JsOption.from_option

/-- Modelled from the spec: the inverse of the lossless nested conversion,
which the spec describes ("converting back: Present↔has-value-of-has-value,
ExplicitAbsent↔has-value-of-no-value, ImplicitAbsent↔no-value") but the crate
does not define as a named function. -/
def JsOption.from_nested_option : Option (Option T) → JsOption T
  | Option.some (Option.some x) => JsOption.some x
  | Option.some Option.none => JsOption.null
  | Option.none => JsOption.undefined

/-- C1: serializing `Some(v)` yields the value-level encoding of `v` wrapped
as present, serializing `Null` yields the explicit null marker, and
serializing `Undefined` returns a recoverable error (not a panic, not silent
output) whose message mentions "undefined". -/
theorem serialize_contract (T : Type) (v : T) :
    JsOption.serialize (JsOption.some v) = Except.ok (SerdeOut.someVal v) ∧
    JsOption.serialize (JsOption.null : JsOption T) = Except.ok SerdeOut.noneVal ∧
    ∃ msg : String, JsOption.serialize (JsOption.undefined : JsOption T) = Except.error msg ∧
      ∃ s t : String, msg = s ++ "undefined" ++ t := by
  refine ⟨rfl, rfl, "attempted to serialize `undefined`", rfl,
    "attempted to serialize `", "`", ?_⟩
  decide

/-- C2: converting any `JsOption` value to the nested `Option (Option T)` form
and back by the inverse mapping reproduces the original value exactly, for all
three variants. -/
theorem nested_option_roundtrip (T : Type) (v : JsOption T) :
    JsOption.from_nested_option (JsOption.into_nested_option v) = v := by
  cases v <;> rfl

/-- C3: deserialization never produces `Undefined`: any successful decode is
either `Some` (from a present value) or `Null` (from an explicit null), and
`Undefined` arises only as the default value, on which `is_undefined` holds. -/
theorem deserialize_never_undefined (T : Type) (x : T)
    (res : Except String (Option T)) (v : JsOption T)
    (h : JsOption.deserialize res = Except.ok v) :
    v.is_undefined = false ∧
    JsOption.deserialize (Except.ok (Option.some x)) = Except.ok (JsOption.some x) ∧
    JsOption.deserialize (Except.ok (Option.none : Option T)) =
      Except.ok (JsOption.null : JsOption T) ∧
    (JsOption.default_value : JsOption T).is_undefined = true := by
  refine ⟨?_, rfl, rfl, rfl⟩
  cases res with
  | error e => simp [JsOption.deserialize, Except.map] at h
  | ok o =>
    simp [JsOption.deserialize, Except.map] at h
    subst h
    cases o <;> rfl

/-- Witness for C3 at a concrete input. -/
theorem deserialize_never_undefined_witness :
    (JsOption.some 3 : JsOption Nat).is_undefined = false ∧
    JsOption.deserialize (Except.ok (Option.some 3)) = Except.ok (JsOption.some 3) ∧
    JsOption.deserialize (Except.ok (Option.none : Option Nat)) =
      Except.ok (JsOption.null : JsOption Nat) ∧
    (JsOption.default_value : JsOption Nat).is_undefined = true :=
  deserialize_never_undefined Nat 3 (Except.ok (Option.some 3)) (JsOption.some 3) rfl

/-- C4: collapsing back to `Option` after either constructor from `Option`
yields the original `Option`. -/
theorem from_option_into_option_roundtrip (T : Type) (o : Option T) :
    (JsOption.from_option o).into_option = o ∧
    (JsOption.from_implicit_option o).into_option = o := by
  cases o <;> exact ⟨rfl, rfl⟩

/-- C5: `map f` sends `Some(x)` to `Some(f x)` and passes `Null` and
`Undefined` through unchanged. The equations hold for every function `f`, so
the result on the absent variants is independent of `f`: in the source the
closure is only ever called in the `Some` arm, which is what these
`f`-parametric equations express in a pure embedding. -/
theorem map_contract (T U : Type) (f : T → U) (x : T) :
    (JsOption.some x).map f = JsOption.some (f x) ∧
    (JsOption.null : JsOption T).map f = JsOption.null ∧
    (JsOption.undefined : JsOption T).map f = JsOption.undefined :=
  ⟨rfl, rfl, rfl⟩

/-- C6: `unwrap` returns the payload on `Some` and fails on `Null` and on
`Undefined` (the Rust panic is embedded as the `Except.error` case), with a
message naming the variant found; the message for `Null` mentions "Null", the
one for `Undefined` mentions "Undefined", and the two messages differ. -/
theorem unwrap_contract (T : Type) (v : T) :
    JsOption.unwrap (JsOption.some v) = Except.ok v ∧
    ∃ mN : String, JsOption.unwrap (JsOption.null : JsOption T) = Except.error mN ∧
      ∃ mU : String, JsOption.unwrap (JsOption.undefined : JsOption T) = Except.error mU ∧
        (∃ s t : String, mN = s ++ "Null" ++ t) ∧
        (∃ s t : String, mU = s ++ "Undefined" ++ t) ∧
        mN ≠ mU := by
  refine ⟨rfl, "called `JsOption::unwrap()` on `Null`", rfl,
    "called `JsOption::unwrap()` on `Undefined`", rfl,
    ⟨"called `JsOption::unwrap()` on `", "`", ?_⟩,
    ⟨"called `JsOption::unwrap()` on `", "`", ?_⟩, ?_⟩ <;> decide

/-- C7: the derived ordering is a total order with `Some(x) < Null <
Undefined` for every `x`, two `Some` values ordered by `T`'s own order, and
comparison consistent with structural equality (`cmp` returns `Equal` exactly
on equal values). -/
theorem ord_total_order (T : Type) [LinearOrder T] (x y : T) (a b c : JsOption T) :
    JsOption.lt (JsOption.some x) JsOption.null ∧
    JsOption.lt (JsOption.null : JsOption T) JsOption.undefined ∧
    JsOption.lt (JsOption.some x) JsOption.undefined ∧
    (JsOption.lt (JsOption.some x) (JsOption.some y) ↔ x < y) ∧
    (JsOption.cmp a b = Ordering.eq ↔ a = b) ∧
    (JsOption.le a b ∨ JsOption.le b a) ∧
    (JsOption.le a b → JsOption.le b c → JsOption.le a c) ∧
    (JsOption.le a b → JsOption.le b a → a = b) := by
  refine ⟨rfl, rfl, rfl, ?_, ?_, ?_, ?_, ?_⟩
  · simp [JsOption.lt, JsOption.cmp, compare_lt_iff_lt]
  · cases a <;> cases b <;> simp [JsOption.cmp, compare_eq_iff_eq]
  · cases a <;> cases b <;> simp [JsOption.le, JsOption.cmp, compare_le_iff_le]
    exact le_total _ _
  · cases a <;> cases b <;> cases c <;>
      simp [JsOption.le, JsOption.cmp, compare_le_iff_le]
    exact le_trans
  · cases a <;> cases b <;> simp [JsOption.le, JsOption.cmp, compare_le_iff_le]
    exact le_antisymm

/-- Witness for C7 at concrete inputs over `Nat`. -/
theorem ord_total_order_witness :
    JsOption.lt (JsOption.some 1) (JsOption.some 2 : JsOption Nat) ∧
    JsOption.le (JsOption.some 1) (JsOption.null : JsOption Nat) := by
  have h := ord_total_order Nat 1 2 (JsOption.some 1) (JsOption.some 2) JsOption.null
  exact ⟨h.2.2.2.1.mpr (by decide),
    h.2.2.2.2.2.2.1 (by decide) (by decide)⟩

/-- C8: on every value exactly one of `is_some`, `is_null`, `is_undefined` is
true (their truth-count is one), and each predicate characterises exactly its
own variant. -/
theorem predicates_exclusive (T : Type) (v : JsOption T) :
    v.is_some.toNat + v.is_null.toNat + v.is_undefined.toNat = 1 ∧
    (v.is_some = true ↔ ∃ w, v = JsOption.some w) ∧
    (v.is_null = true ↔ v = JsOption.null) ∧
    (v.is_undefined = true ↔ v = JsOption.undefined) := by
  cases v <;> simp [JsOption.is_some, JsOption.is_null, JsOption.is_undefined]

/-- C9: `unwrap_or` returns the payload on `Some` and the supplied default on
either absent variant; `unwrap_or_else` likewise with the produced default,
and on `Some` the result is the payload for every producer `f` (the producer
is never consulted); `unwrap_or_default` returns `T`'s default value on either
absent variant. -/
theorem unwrap_or_contract (T : Type) [Inhabited T] (v d : T) (f : Unit → T) :
    (JsOption.some v).unwrap_or d = v ∧
    (JsOption.null : JsOption T).unwrap_or d = d ∧
    (JsOption.undefined : JsOption T).unwrap_or d = d ∧
    (JsOption.some v).unwrap_or_else f = v ∧
    (JsOption.null : JsOption T).unwrap_or_else f = f () ∧
    (JsOption.undefined : JsOption T).unwrap_or_else f = f () ∧
    (JsOption.some v).unwrap_or_default = v ∧
    (JsOption.null : JsOption T).unwrap_or_default = default ∧
    (JsOption.undefined : JsOption T).unwrap_or_default = default :=
  ⟨rfl, rfl, rfl, rfl, rfl, rfl, rfl, rfl, rfl⟩

/-- C10: collapsing to a single `Option` agrees with flattening the nested
form: `into_option` equals `Option.join` after `into_nested_option`, on every
value. -/
theorem into_option_eq_join_nested (T : Type) (v : JsOption T) :
    (JsOption.into_nested_option v).join = JsOption.into_option v := by
  cases v <;> rfl
